import Mathlib

set_option autoImplicit false

/-!
Shallow embedding of the BitTube record channel (libs/gui/BitTube.cpp) and of
the input-event label tables (include/input/InputEventLabels.h).

The BitTube member functions are translated as pure functions.  The raw
outcome of one kernel call (`::send` / `::recv` / `socketpair` / `dup`) is a
value of an explicit outcome type, so the post-processing that the C++ code
performs on that outcome is state-free and executable.  The behaviour of the
kernel SOCK_SEQPACKET transport itself is not code of this repository; it is
modelled separately (`Kernel`, `kernelSend`, `kernelRecv`) from the spec.
-/

/-- Linux errno value for an interrupted call, used by the retry loops. -/
def EINTR : Nat := 4

/-- Linux errno value for a would-block condition on a non-blocking socket. -/
def EAGAIN : Nat := 11

/-- On Linux `EWOULDBLOCK` is the same value as `EAGAIN`. -/
def EWOULDBLOCK : Nat := 11

/-- Linux errno value for an invalid file descriptor. -/
def EBADF : Nat := 9

/-- Linux errno value for an invalid argument. -/
def EINVAL : Nat := 22

/-- `status_t` success value `NO_ERROR` from utils/Errors.h. -/
def NO_ERROR : Int := 0

/-- Raw outcome of one `::send` call: either a byte count, or an errno. -/
inductive RawSend where
  | ok (len : Nat)
  | err (e : Nat)
deriving DecidableEq

/-- Raw outcome of one `::recv` call: either the bytes stored into the
caller buffer (the return value is their number), or an errno.  A peer
that has closed its end is reported by the kernel as `ok []` (EOF). -/
inductive RawRecv where
  | ok (data : List Nat)
  | err (e : Nat)
deriving DecidableEq

/-- The two descriptor fields of a `BitTube` (BitTube.h / BitTube.cpp).
A negative value is an invalid descriptor or a stored negated errno. -/
structure BitTube where
  mSendFd : Int
  mReceiveFd : Int
deriving DecidableEq

/-- `BitTube::write` (BitTube.cpp lines 116-125), as a function of the trace
of raw `::send` outcomes: the do-while loop retries while the outcome is an
`EINTR` error, then returns `len` on success and `-errno` on failure.
`none` means the loop never saw a non-`EINTR` outcome (it does not return). -/
def writeFromTrace : List RawSend → Option Int
  | [] => none
  | .ok len :: _ => some ((len : Int))
  | .err e :: rest => if e = EINTR then writeFromTrace rest else some (-(e : Int))

/-- The return value and buffer contents produced by `BitTube::read`
(BitTube.cpp lines 127-140) from the final (non-`EINTR`) raw outcome:
`EAGAIN`/`EWOULDBLOCK` is mapped to `0` ("no data yet" is not an error),
any other errno to `-errno`, and a success to its byte count. -/
def readFinish : RawRecv → Int × List Nat
  | .ok data => (((data.length : Nat) : Int), data)
  | .err e => if e = EAGAIN ∨ e = EWOULDBLOCK then (0, []) else (-(e : Int), [])

/-- `BitTube::read` (BitTube.cpp lines 127-140) over the trace of raw
`::recv` outcomes: retry while `EINTR`, then apply `readFinish`. -/
def readFromTrace : List RawRecv → Option (Int × List Nat)
  | [] => none
  | .ok data :: _ => some (readFinish (.ok data))
  | .err e :: rest => if e = EINTR then readFromTrace rest else some (readFinish (.err e))

/-- Outcome of `BitTube::sendObjects` / `BitTube::recvObjects`:
`fatal` is the `LOG_ALWAYS_FATAL_IF` abort path, `divByZero` marks the C
undefined behaviour of `size % objSize` with `objSize = 0`, and `ret n`
is a normal return of `n`. -/
inductive BatchResult where
  | fatal
  | divByZero
  | ret (n : Int)
deriving DecidableEq

/-- `BitTube::sendObjects` (BitTube.cpp lines 154-167) as a function of the
result `size` of `tube->write` and of `objSize`: when `size >= 0` the code
evaluates `size % objSize` (division by zero if `objSize = 0`) and aborts
on a nonzero remainder, otherwise it returns `size / objSize`; when
`size < 0` the `&&` short-circuits and `size` itself is returned. -/
def sendObjectsFromRaw (objSize : Nat) (size : Int) : BatchResult :=
  if 0 ≤ size then
    if objSize = 0 then .divByZero
    else if size % (objSize : Int) ≠ 0 then .fatal
    else .ret (size / (objSize : Int))
  else .ret size

/-- `BitTube::recvObjects` (BitTube.cpp lines 169-182) as a function of the
result `size` of `tube->read` and of `objSize`; same structure as
`sendObjectsFromRaw`. -/
def recvObjectsFromRaw (objSize : Nat) (size : Int) : BatchResult :=
  if 0 ≤ size then
    if objSize = 0 then .divByZero
    else if size % (objSize : Int) ≠ 0 then .fatal
    else .ret (size / (objSize : Int))
  else .ret size

/-- Modelled from the spec: the kernel state of one connected
`AF_UNIX`/`SOCK_SEQPACKET` pair as configured by `BitTube::init`
(record-boundary preserving, non-blocking, with a configured outbound
buffer limit).  The kernel itself is not code of this repository.
`queue` holds the messages in flight from the send end to the receive
end, in send order; `sndbuf` is the configured buffer limit in bytes. -/
structure Kernel where
  sendFd : Int
  recvFd : Int
  sendOpen : Bool
  recvOpen : Bool
  sndbuf : Nat
  queue : List (List Nat)
deriving DecidableEq

/-- Total number of bytes currently queued in the kernel. -/
def Kernel.queuedBytes (k : Kernel) : Nat :=
  (k.queue.map List.length).sum

/-- Modelled from the spec: one non-blocking `::send` on a SOCK_SEQPACKET
socket.  An invalid or mismatched descriptor fails with `EBADF`; a payload
that does not fit in the remaining buffer space fails with `EAGAIN`
(`MSG_DONTWAIT` and `O_NONBLOCK` are set, so the call never blocks);
otherwise the payload is enqueued whole as one message. -/
def kernelSend (k : Kernel) (fd : Int) (payload : List Nat) : RawSend × Kernel :=
  if 0 ≤ fd ∧ fd = k.sendFd ∧ k.sendOpen then
    if k.queuedBytes + payload.length ≤ k.sndbuf then
      (.ok payload.length, { k with queue := k.queue ++ [payload] })
    else (.err EAGAIN, k)
  else (.err EBADF, k)

/-- Modelled from the spec: one non-blocking `::recv` on a SOCK_SEQPACKET
socket.  An invalid or mismatched descriptor fails with `EBADF`; an empty
queue reports `EAGAIN` while the peer is open and EOF (`ok []`) once the
peer has closed; otherwise the head message is delivered whole, truncated
to the caller capacity. -/
def kernelRecv (k : Kernel) (fd : Int) (cap : Nat) : RawRecv × Kernel :=
  if 0 ≤ fd ∧ fd = k.recvFd ∧ k.recvOpen then
    match k.queue with
    | [] => if k.sendOpen then (.err EAGAIN, k) else (.ok [], k)
    | m :: rest => (.ok (m.take cap), { k with queue := rest })
  else (.err EBADF, k)

/-- `BitTube::write` composed with the kernel model.  `kernelSend` never
returns `EINTR` (lemma `writeFromTrace_kernel`), so the retry loop runs
exactly once and the errno post-processing of lines 116-125 applies to the
single raw outcome. -/
def BitTube.write (t : BitTube) (k : Kernel) (payload : List Nat) : Int × Kernel :=
  match kernelSend k t.mSendFd payload with
  | (.ok len, k2) => (((len : Nat) : Int), k2)
  | (.err e, k2) => (-(e : Int), k2)

/-- `BitTube::read` composed with the kernel model; as for `write`, the
retry loop collapses because `kernelRecv` never returns `EINTR`. -/
def BitTube.read (t : BitTube) (k : Kernel) (cap : Nat) : Int × List Nat × Kernel :=
  match kernelRecv k t.mReceiveFd cap with
  | (raw, k2) => ((readFinish raw).1, (readFinish raw).2, k2)

/-- `BitTube::sendObjects` composed with the kernel model: one `write` of
`count * objSize` bytes taken from the caller buffer, then the
boundary-integrity check and record-count division of lines 154-167. -/
def BitTube.sendObjects (t : BitTube) (k : Kernel) (events : List Nat)
    (count objSize : Nat) : BatchResult × Kernel :=
  match t.write k (events.take (count * objSize)) with
  | (size, k2) => (sendObjectsFromRaw objSize size, k2)

/-- `BitTube::recvObjects` composed with the kernel model: one `read` of
capacity `count * objSize`, then the boundary-integrity check and
record-count division of lines 169-182.  The middle component is the data
stored into the caller buffer. -/
def BitTube.recvObjects (t : BitTube) (k : Kernel) (count objSize : Nat) :
    BatchResult × List Nat × Kernel :=
  match t.read k (count * objSize) with
  | (size, data, k2) => (recvObjectsFromRaw objSize size, data, k2)

/-- `status_t BitTube::initCheck() const` (BitTube.cpp lines 98-104):
returns the stored negative value when the receive descriptor is invalid,
and `NO_ERROR` otherwise. -/
def BitTube.initCheck (t : BitTube) : Int :=
  if t.mReceiveFd < 0 then t.mReceiveFd else NO_ERROR

/-- Raw outcome of the `socketpair` call in `BitTube::init`: two fresh
non-negative descriptors, or failure with an errno. -/
inductive PairOutcome where
  | ok (fd0 fd1 : Nat)
  | fail (e : Nat)
deriving DecidableEq

/-- `BitTube::init` (BitTube.cpp lines 72-96) applied to the fields as set
by the constructors (both descriptors start at `-1`).  On success
`mReceiveFd := sockets[0]` and `mSendFd := sockets[1]`, and the kernel pair
is configured (buffers, `O_NONBLOCK`) with an empty queue; on failure
`mReceiveFd := -errno` and no kernel pair exists.  The function has no
fatal path; the debug socket-naming side effect is diagnostic only and is
not modelled. -/
def BitTube.init (sndbuf : Nat) (o : PairOutcome) : BitTube × Option Kernel :=
  match o with
  | .ok fd0 fd1 =>
      ({ mSendFd := ((fd1 : Nat) : Int), mReceiveFd := ((fd0 : Nat) : Int) },
       some { sendFd := ((fd1 : Nat) : Int), recvFd := ((fd0 : Nat) : Int),
              sendOpen := true, recvOpen := true, sndbuf := sndbuf, queue := [] })
  | .fail e => ({ mSendFd := -1, mReceiveFd := -(e : Int) }, none)

/-- Raw outcome of the `dup` call in `BitTube::BitTube(const Parcel&)`:
a fresh non-negative descriptor, or failure with an errno. -/
inductive DupOutcome where
  | ok (fd : Nat)
  | fail (e : Nat)
deriving DecidableEq

/-- `BitTube::BitTube(const Parcel& data)` (BitTube.cpp lines 52-61):
`mSendFd` stays `-1`; `mReceiveFd` is the duplicated descriptor, or
`-errno` when the duplication failed. -/
def BitTube.fromParcel (o : DupOutcome) : BitTube :=
  match o with
  | .ok fd => { mSendFd := -1, mReceiveFd := ((fd : Nat) : Int) }
  | .fail e => { mSendFd := -1, mReceiveFd := -(e : Int) }

/-- The one aspect of `Parcel` that `BitTube::writeToParcel` uses: the list
of file descriptors embedded in the message, in order. -/
structure Parcel where
  fds : List Int
deriving DecidableEq

/-- Raw outcome of `Parcel::writeDupFileDescriptor`: on success the parcel
gains a freshly duplicated descriptor and the call returns `NO_ERROR`; on
failure it returns a negative `status_t`. -/
inductive WriteDupOutcome where
  | ok (newFd : Nat)
  | fail (err : Int)
deriving DecidableEq

/-- `status_t BitTube::writeToParcel(Parcel* reply) const`
(BitTube.cpp lines 142-151): returns `-EINVAL` leaving everything
unchanged when `mReceiveFd < 0`; otherwise writes a duplicated descriptor
into the parcel, closes `mReceiveFd`, sets it to `-1`, and returns the
`writeDupFileDescriptor` status.  Result: (returned status, tube after the
call, parcel after the call). -/
def BitTube.writeToParcel (t : BitTube) (p : Parcel) (o : WriteDupOutcome) :
    Int × BitTube × Parcel :=
  if t.mReceiveFd < 0 then (-(EINVAL : Int), t, p)
  else
    match o with
    | .ok newFd =>
        (NO_ERROR, { t with mReceiveFd := -1 },
         { fds := p.fds ++ [((newFd : Nat) : Int)] })
    | .fail err => (err, { t with mReceiveFd := -1 }, p)

/-!
Label tables of include/input/InputEventLabels.h.  Each C array is a list
of `{ literal, value }` entries closed by the terminator `{ NULL, 0 }`.
The embedding keeps the proper entries as a `List (String × Int)` and
bakes the terminator into the base case of the two lookup walks: the
`while (list->literal)` loop of `lookupValueByLabel` stops at the
terminator and returns its value `0`, and the one of `lookupLabelByValue`
stops there and returns `NULL` (`none`).

The literals are transcribed from the source.  The numeric values come
from external headers (android/keycodes.h, input/Input.h) that are not
part of this repository; modelled from the spec ("static tables mapping
symbolic names to small integer codes"), they are taken as the sequential
position of the entry in its table.  No theorem below depends on the
particular value of a mapped code.
-/

/-- `lookupValueByLabel` (InputEventLabels.h lines 393-401): walk the
entries; on a literal match return the entry value; at the `{ NULL, 0 }`
terminator return its value `0`. -/
def lookupValueByLabel (literal : String) : List (String × Int) → Int
  | [] => 0
  | e :: rest => if literal = e.1 then e.2 else lookupValueByLabel literal rest

/-- `lookupLabelByValue` (InputEventLabels.h lines 403-411): walk the
entries; on a value match return the entry literal; at the terminator
return `NULL` (`none`). -/
def lookupLabelByValue (value : Int) : List (String × Int) → Option String
  | [] => none
  | e :: rest => if e.2 = value then some e.1 else lookupLabelByValue value rest

/-- The `KEYCODES` table (InputEventLabels.h lines 39-312): the literals
of the `DEFINE_KEYCODE` entries in source order, values modelled as the
sequential position (see the section comment above). -/
def KEYCODES : List (String × Int) := [
  ("UNKNOWN", 0),
  ("SOFT_LEFT", 1),
  ("SOFT_RIGHT", 2),
  ("HOME", 3),
  ("BACK", 4),
  ("CALL", 5),
  ("ENDCALL", 6),
  ("0", 7),
  ("1", 8),
  ("2", 9),
  ("3", 10),
  ("4", 11),
  ("5", 12),
  ("6", 13),
  ("7", 14),
  ("8", 15),
  ("9", 16),
  ("STAR", 17),
  ("POUND", 18),
  ("DPAD_UP", 19),
  ("DPAD_DOWN", 20),
  ("DPAD_LEFT", 21),
  ("DPAD_RIGHT", 22),
  ("DPAD_CENTER", 23),
  ("VOLUME_UP", 24),
  ("VOLUME_DOWN", 25),
  ("POWER", 26),
  ("CAMERA", 27),
  ("CLEAR", 28),
  ("A", 29),
  ("B", 30),
  ("C", 31),
  ("D", 32),
  ("E", 33),
  ("F", 34),
  ("G", 35),
  ("H", 36),
  ("I", 37),
  ("J", 38),
  ("K", 39),
  ("L", 40),
  ("M", 41),
  ("N", 42),
  ("O", 43),
  ("P", 44),
  ("Q", 45),
  ("R", 46),
  ("S", 47),
  ("T", 48),
  ("U", 49),
  ("V", 50),
  ("W", 51),
  ("X", 52),
  ("Y", 53),
  ("Z", 54),
  ("COMMA", 55),
  ("PERIOD", 56),
  ("ALT_LEFT", 57),
  ("ALT_RIGHT", 58),
  ("SHIFT_LEFT", 59),
  ("SHIFT_RIGHT", 60),
  ("TAB", 61),
  ("SPACE", 62),
  ("SYM", 63),
  ("EXPLORER", 64),
  ("ENVELOPE", 65),
  ("ENTER", 66),
  ("DEL", 67),
  ("GRAVE", 68),
  ("MINUS", 69),
  ("EQUALS", 70),
  ("LEFT_BRACKET", 71),
  ("RIGHT_BRACKET", 72),
  ("BACKSLASH", 73),
  ("SEMICOLON", 74),
  ("APOSTROPHE", 75),
  ("SLASH", 76),
  ("AT", 77),
  ("NUM", 78),
  ("HEADSETHOOK", 79),
  ("FOCUS", 80),
  ("PLUS", 81),
  ("MENU", 82),
  ("NOTIFICATION", 83),
  ("SEARCH", 84),
  ("MEDIA_PLAY_PAUSE", 85),
  ("MEDIA_STOP", 86),
  ("MEDIA_NEXT", 87),
  ("MEDIA_PREVIOUS", 88),
  ("MEDIA_REWIND", 89),
  ("MEDIA_FAST_FORWARD", 90),
  ("MUTE", 91),
  ("PAGE_UP", 92),
  ("PAGE_DOWN", 93),
  ("PICTSYMBOLS", 94),
  ("SWITCH_CHARSET", 95),
  ("BUTTON_A", 96),
  ("BUTTON_B", 97),
  ("BUTTON_C", 98),
  ("BUTTON_X", 99),
  ("BUTTON_Y", 100),
  ("BUTTON_Z", 101),
  ("BUTTON_L1", 102),
  ("BUTTON_R1", 103),
  ("BUTTON_L2", 104),
  ("BUTTON_R2", 105),
  ("BUTTON_THUMBL", 106),
  ("BUTTON_THUMBR", 107),
  ("BUTTON_START", 108),
  ("BUTTON_SELECT", 109),
  ("BUTTON_MODE", 110),
  ("ESCAPE", 111),
  ("FORWARD_DEL", 112),
  ("CTRL_LEFT", 113),
  ("CTRL_RIGHT", 114),
  ("CAPS_LOCK", 115),
  ("SCROLL_LOCK", 116),
  ("META_LEFT", 117),
  ("META_RIGHT", 118),
  ("FUNCTION", 119),
  ("SYSRQ", 120),
  ("BREAK", 121),
  ("MOVE_HOME", 122),
  ("MOVE_END", 123),
  ("INSERT", 124),
  ("FORWARD", 125),
  ("MEDIA_PLAY", 126),
  ("MEDIA_PAUSE", 127),
  ("MEDIA_CLOSE", 128),
  ("MEDIA_EJECT", 129),
  ("MEDIA_RECORD", 130),
  ("F1", 131),
  ("F2", 132),
  ("F3", 133),
  ("F4", 134),
  ("F5", 135),
  ("F6", 136),
  ("F7", 137),
  ("F8", 138),
  ("F9", 139),
  ("F10", 140),
  ("F11", 141),
  ("F12", 142),
  ("NUM_LOCK", 143),
  ("NUMPAD_0", 144),
  ("NUMPAD_1", 145),
  ("NUMPAD_2", 146),
  ("NUMPAD_3", 147),
  ("NUMPAD_4", 148),
  ("NUMPAD_5", 149),
  ("NUMPAD_6", 150),
  ("NUMPAD_7", 151),
  ("NUMPAD_8", 152),
  ("NUMPAD_9", 153),
  ("NUMPAD_DIVIDE", 154),
  ("NUMPAD_MULTIPLY", 155),
  ("NUMPAD_SUBTRACT", 156),
  ("NUMPAD_ADD", 157),
  ("NUMPAD_DOT", 158),
  ("NUMPAD_COMMA", 159),
  ("NUMPAD_ENTER", 160),
  ("NUMPAD_EQUALS", 161),
  ("NUMPAD_LEFT_PAREN", 162),
  ("NUMPAD_RIGHT_PAREN", 163),
  ("VOLUME_MUTE", 164),
  ("INFO", 165),
  ("CHANNEL_UP", 166),
  ("CHANNEL_DOWN", 167),
  ("ZOOM_IN", 168),
  ("ZOOM_OUT", 169),
  ("TV", 170),
  ("WINDOW", 171),
  ("GUIDE", 172),
  ("DVR", 173),
  ("BOOKMARK", 174),
  ("CAPTIONS", 175),
  ("SETTINGS", 176),
  ("TV_POWER", 177),
  ("TV_INPUT", 178),
  ("STB_POWER", 179),
  ("STB_INPUT", 180),
  ("AVR_POWER", 181),
  ("AVR_INPUT", 182),
  ("PROG_RED", 183),
  ("PROG_GREEN", 184),
  ("PROG_YELLOW", 185),
  ("PROG_BLUE", 186),
  ("APP_SWITCH", 187),
  ("BUTTON_1", 188),
  ("BUTTON_2", 189),
  ("BUTTON_3", 190),
  ("BUTTON_4", 191),
  ("BUTTON_5", 192),
  ("BUTTON_6", 193),
  ("BUTTON_7", 194),
  ("BUTTON_8", 195),
  ("BUTTON_9", 196),
  ("BUTTON_10", 197),
  ("BUTTON_11", 198),
  ("BUTTON_12", 199),
  ("BUTTON_13", 200),
  ("BUTTON_14", 201),
  ("BUTTON_15", 202),
  ("BUTTON_16", 203),
  ("LANGUAGE_SWITCH", 204),
  ("MANNER_MODE", 205),
  ("3D_MODE", 206),
  ("CONTACTS", 207),
  ("CALENDAR", 208),
  ("MUSIC", 209),
  ("CALCULATOR", 210),
  ("ZENKAKU_HANKAKU", 211),
  ("EISU", 212),
  ("MUHENKAN", 213),
  ("HENKAN", 214),
  ("KATAKANA_HIRAGANA", 215),
  ("YEN", 216),
  ("RO", 217),
  ("KANA", 218),
  ("ASSIST", 219),
  ("BRIGHTNESS_DOWN", 220),
  ("BRIGHTNESS_UP", 221),
  ("MEDIA_AUDIO_TRACK", 222),
  ("SLEEP", 223),
  ("WAKEUP", 224),
  ("PAIRING", 225),
  ("MEDIA_TOP_MENU", 226),
  ("11", 227),
  ("12", 228),
  ("LAST_CHANNEL", 229),
  ("TV_DATA_SERVICE", 230),
  ("VOICE_ASSIST", 231),
  ("TV_RADIO_SERVICE", 232),
  ("TV_TELETEXT", 233),
  ("TV_NUMBER_ENTRY", 234),
  ("TV_TERRESTRIAL_ANALOG", 235),
  ("TV_TERRESTRIAL_DIGITAL", 236),
  ("TV_SATELLITE", 237),
  ("TV_SATELLITE_BS", 238),
  ("TV_SATELLITE_CS", 239),
  ("TV_SATELLITE_SERVICE", 240),
  ("TV_NETWORK", 241),
  ("TV_ANTENNA_CABLE", 242),
  ("TV_INPUT_HDMI_1", 243),
  ("TV_INPUT_HDMI_2", 244),
  ("TV_INPUT_HDMI_3", 245),
  ("TV_INPUT_HDMI_4", 246),
  ("TV_INPUT_COMPOSITE_1", 247),
  ("TV_INPUT_COMPOSITE_2", 248),
  ("TV_INPUT_COMPONENT_1", 249),
  ("TV_INPUT_COMPONENT_2", 250),
  ("TV_INPUT_VGA_1", 251),
  ("TV_AUDIO_DESCRIPTION", 252),
  ("TV_AUDIO_DESCRIPTION_MIX_UP", 253),
  ("TV_AUDIO_DESCRIPTION_MIX_DOWN", 254),
  ("TV_ZOOM_MODE", 255),
  ("TV_CONTENTS_MENU", 256),
  ("TV_MEDIA_CONTEXT_MENU", 257),
  ("TV_TIMER_PROGRAMMING", 258),
  ("HELP", 259),
  ("NAVIGATE_PREVIOUS", 260),
  ("NAVIGATE_NEXT", 261),
  ("NAVIGATE_IN", 262),
  ("NAVIGATE_OUT", 263),
  ("MEDIA_SKIP_FORWARD", 264),
  ("MEDIA_SKIP_BACKWARD", 265),
  ("MEDIA_STEP_FORWARD", 266),
  ("MEDIA_STEP_BACKWARD", 267)
]

/-- The `AXES` table (InputEventLabels.h lines 314-361). -/
def AXES : List (String × Int) := [
  ("X", 0),
  ("Y", 1),
  ("PRESSURE", 2),
  ("SIZE", 3),
  ("TOUCH_MAJOR", 4),
  ("TOUCH_MINOR", 5),
  ("TOOL_MAJOR", 6),
  ("TOOL_MINOR", 7),
  ("ORIENTATION", 8),
  ("VSCROLL", 9),
  ("HSCROLL", 10),
  ("Z", 11),
  ("RX", 12),
  ("RY", 13),
  ("RZ", 14),
  ("HAT_X", 15),
  ("HAT_Y", 16),
  ("LTRIGGER", 17),
  ("RTRIGGER", 18),
  ("THROTTLE", 19),
  ("RUDDER", 20),
  ("WHEEL", 21),
  ("GAS", 22),
  ("BRAKE", 23),
  ("DISTANCE", 24),
  ("TILT", 25),
  ("GENERIC_1", 26),
  ("GENERIC_2", 27),
  ("GENERIC_3", 28),
  ("GENERIC_4", 29),
  ("GENERIC_5", 30),
  ("GENERIC_6", 31),
  ("GENERIC_7", 32),
  ("GENERIC_8", 33),
  ("GENERIC_9", 34),
  ("GENERIC_10", 35),
  ("GENERIC_11", 36),
  ("GENERIC_12", 37),
  ("GENERIC_13", 38),
  ("GENERIC_14", 39),
  ("GENERIC_15", 40),
  ("GENERIC_16", 41)
]

/-- The `LEDS` table (InputEventLabels.h lines 363-382). -/
def LEDS : List (String × Int) := [
  ("NUM_LOCK", 0),
  ("CAPS_LOCK", 1),
  ("SCROLL_LOCK", 2),
  ("COMPOSE", 3),
  ("KANA", 4),
  ("SLEEP", 5),
  ("SUSPEND", 6),
  ("MUTE", 7),
  ("MISC", 8),
  ("MAIL", 9),
  ("CHARGING", 10),
  ("CONTROLLER_1", 11),
  ("CONTROLLER_2", 12),
  ("CONTROLLER_3", 13),
  ("CONTROLLER_4", 14)
]

/-- The `FLAGS` table (InputEventLabels.h lines 384-391). -/
def FLAGS : List (String × Int) := [
  ("VIRTUAL", 0),
  ("FUNCTION", 1),
  ("GESTURE", 2),
  ("WAKE", 3)
]

/-- `getKeyCodeByLabel` (InputEventLabels.h lines 413-415). -/
def getKeyCodeByLabel (label : String) : Int :=
  lookupValueByLabel label KEYCODES

/-- `getLabelByKeyCode` (InputEventLabels.h lines 417-422): the range check
`keyCode >= 0 && keyCode < size(KEYCODES)` uses the C array length, which
counts the `{ NULL, 0 }` terminator, so the index equal to the number of
proper entries is in range and yields the terminator literal `NULL`. -/
def getLabelByKeyCode (keyCode : Int) : Option String :=
  if 0 ≤ keyCode ∧ keyCode < (KEYCODES.length : Int) + 1 then
    if h : keyCode.toNat < KEYCODES.length then some (KEYCODES.get ⟨keyCode.toNat, h⟩).1
    else none
  else none

/-- `getKeyFlagByLabel` (InputEventLabels.h lines 424-426); the cast to
`uint32_t` is immaterial for the modelled non-negative values. -/
def getKeyFlagByLabel (label : String) : Int :=
  lookupValueByLabel label FLAGS

/-- `getAxisByLabel` (InputEventLabels.h lines 428-430). -/
def getAxisByLabel (label : String) : Int :=
  lookupValueByLabel label AXES

/-- `getAxisLabel` (InputEventLabels.h lines 432-434). -/
def getAxisLabel (axisId : Int) : Option String :=
  lookupLabelByValue axisId AXES

/-- `getLedByLabel` (InputEventLabels.h lines 436-438). -/
def getLedByLabel (label : String) : Int :=
  lookupValueByLabel label LEDS

/-- A demo tube paired with the demo kernel states below. -/
def tubeDemo : BitTube := { mSendFd := 1, mReceiveFd := 0 }

/-- Demo kernel state: both ends open, empty queue (nothing pending). -/
def kernelIdle : Kernel :=
  { sendFd := 1, recvFd := 0, sendOpen := true, recvOpen := true,
    sndbuf := 4096, queue := [] }

/-- Demo kernel state: send end closed by the peer, empty queue. -/
def kernelPeerClosed : Kernel :=
  { sendFd := 1, recvFd := 0, sendOpen := false, recvOpen := true,
    sndbuf := 4096, queue := [] }

/-! ### Bridging and helper lemmas -/

/-- `kernelSend` never reports the `EINTR` condition. -/
lemma kernelSend_not_EINTR (k : Kernel) (fd : Int) (p : List Nat) :
    (kernelSend k fd p).1 ≠ .err EINTR := by
  unfold kernelSend
  split_ifs <;> simp [EAGAIN, EBADF, EINTR]

/-- `kernelRecv` never reports the `EINTR` condition. -/
lemma kernelRecv_not_EINTR (k : Kernel) (fd : Int) (cap : Nat) :
    (kernelRecv k fd cap).1 ≠ .err EINTR := by
  unfold kernelRecv
  rcases hq : k.queue with _ | ⟨m, rest⟩ <;>
    rcases hs : k.sendOpen <;>
      split_ifs <;> simp [EAGAIN, EBADF, EINTR]

/-- `kernelSend` never reports `EINTR`, so the retry loop of
`BitTube::write` runs exactly once: the composed `BitTube.write` agrees
with the trace semantics on the singleton trace. -/
theorem writeFromTrace_kernel (t : BitTube) (k : Kernel) (p : List Nat) :
    writeFromTrace [(kernelSend k t.mSendFd p).1] = some (t.write k p).1 := by
  have hne := kernelSend_not_EINTR k t.mSendFd p
  unfold BitTube.write
  rcases h : kernelSend k t.mSendFd p with ⟨raw, k2⟩
  rw [h] at hne
  rcases raw with len | e
  · simp [writeFromTrace]
  · have he : e ≠ EINTR := by simpa using hne
    simp [writeFromTrace, he]

/-- `kernelRecv` never reports `EINTR`, so the retry loop of
`BitTube::read` runs exactly once. -/
theorem readFromTrace_kernel (t : BitTube) (k : Kernel) (cap : Nat) :
    readFromTrace [(kernelRecv k t.mReceiveFd cap).1] =
      some ((t.read k cap).1, (t.read k cap).2.1) := by
  have hne := kernelRecv_not_EINTR k t.mReceiveFd cap
  unfold BitTube.read
  rcases h : kernelRecv k t.mReceiveFd cap with ⟨raw, k2⟩
  rw [h] at hne
  rcases raw with data | e
  · simp [readFromTrace]
  · have he : e ≠ EINTR := by simpa using hne
    simp [readFromTrace, he]

lemma batchFromRaw_mul (N S : Nat) (hS : 0 < S) :
    sendObjectsFromRaw S ((N * S : Nat) : Int) = .ret (N : Int) ∧
    recvObjectsFromRaw S ((N * S : Nat) : Int) = .ret (N : Int) := by
  have hcast : ((N * S : Nat) : Int) = (N : Int) * (S : Int) := by push_cast; ring
  have hS0 : (S : Int) ≠ 0 := by exact_mod_cast hS.ne'
  have hmod : (N : Int) * (S : Int) % (S : Int) = 0 := Int.mul_emod_left _ _
  have hdiv : (N : Int) * (S : Int) / (S : Int) = (N : Int) :=
    Int.mul_ediv_cancel _ hS0
  constructor <;>
  · simp only [sendObjectsFromRaw, recvObjectsFromRaw, hcast]
    rw [if_pos (by positivity), if_neg hS.ne', if_neg (by simp [hmod]), hdiv]

lemma kernelSend_ok (k : Kernel) (fd : Int) (b : List Nat)
    (hfd : 0 ≤ fd) (hfd2 : fd = k.sendFd) (hopen : k.sendOpen = true)
    (hcap : k.queuedBytes + b.length ≤ k.sndbuf) :
    kernelSend k fd b = (.ok b.length, { k with queue := k.queue ++ [b] }) := by
  unfold kernelSend
  rw [if_pos ⟨hfd, hfd2, hopen⟩, if_pos hcap]

lemma write_ok (t : BitTube) (k : Kernel) (b : List Nat)
    (hfd : 0 ≤ t.mSendFd) (hfd2 : t.mSendFd = k.sendFd) (hopen : k.sendOpen = true)
    (hcap : k.queuedBytes + b.length ≤ k.sndbuf) :
    t.write k b = ((b.length : Int), { k with queue := k.queue ++ [b] }) := by
  unfold BitTube.write
  rw [kernelSend_ok k t.mSendFd b hfd hfd2 hopen hcap]

lemma sendObjects_ok (t : BitTube) (k : Kernel) (b : List Nat) (N S : Nat)
    (hS : 0 < S)
    (hfd : 0 ≤ t.mSendFd) (hfd2 : t.mSendFd = k.sendFd) (hopen : k.sendOpen = true)
    (hl : b.length = N * S)
    (hcap : k.queuedBytes + N * S ≤ k.sndbuf) :
    t.sendObjects k b N S = (.ret (N : Int), { k with queue := k.queue ++ [b] }) := by
  have htake : b.take (N * S) = b := by rw [← hl]; exact List.take_length b
  unfold BitTube.sendObjects
  rw [htake, write_ok t k b hfd hfd2 hopen (by omega)]
  have := (batchFromRaw_mul N S hS).1
  rw [← hl] at this
  simp only [this]

lemma kernelRecv_ok (k : Kernel) (fd : Int) (cap : Nat) (m : List Nat)
    (rest : List (List Nat))
    (hfd : 0 ≤ fd) (hfd2 : fd = k.recvFd) (hopen : k.recvOpen = true)
    (hq : k.queue = m :: rest) :
    kernelRecv k fd cap = (.ok (m.take cap), { k with queue := rest }) := by
  unfold kernelRecv
  rw [if_pos ⟨hfd, hfd2, hopen⟩, hq]

lemma recvObjects_ok (t : BitTube) (k : Kernel) (m : List Nat)
    (rest : List (List Nat)) (N S : Nat)
    (hS : 0 < S)
    (hfd : 0 ≤ t.mReceiveFd) (hfd2 : t.mReceiveFd = k.recvFd)
    (hopen : k.recvOpen = true)
    (hq : k.queue = m :: rest) (hm : m.length = N * S) :
    t.recvObjects k N S = (.ret (N : Int), m, { k with queue := rest }) := by
  have htake : m.take (N * S) = m := by rw [← hm]; exact List.take_length m
  unfold BitTube.recvObjects BitTube.read
  rw [kernelRecv_ok k t.mReceiveFd (N * S) m rest hfd hfd2 hopen hq]
  simp only [readFinish, htake, hm]
  rw [(batchFromRaw_mul N S hS).2]

lemma kernelSend_invalid (k : Kernel) (fd : Int) (p : List Nat) (h : fd < 0) :
    kernelSend k fd p = (.err EBADF, k) := by
  unfold kernelSend
  rw [if_neg (fun hc => absurd hc.1 (by omega))]

lemma kernelRecv_invalid (k : Kernel) (fd : Int) (cap : Nat) (h : fd < 0) :
    kernelRecv k fd cap = (.err EBADF, k) := by
  unfold kernelRecv
  rw [if_neg (fun hc => absurd hc.1 (by omega))]

lemma read_invalid (t : BitTube) (k : Kernel) (cap : Nat)
    (h : t.mReceiveFd < 0) : t.read k cap = (-(EBADF : Int), [], k) := by
  unfold BitTube.read
  rw [kernelRecv_invalid k t.mReceiveFd cap h]
  simp [readFinish, EAGAIN, EWOULDBLOCK, EBADF]

lemma kernelRecv_empty (k : Kernel) (fd : Int) (cap : Nat)
    (hfd : 0 ≤ fd) (hfd2 : fd = k.recvFd) (hopen : k.recvOpen = true)
    (hq : k.queue = []) (hs : k.sendOpen = true) :
    kernelRecv k fd cap = (.err EAGAIN, k) := by
  unfold kernelRecv
  rw [if_pos ⟨hfd, hfd2, hopen⟩]
  simp only [hq]
  rw [if_pos hs]

lemma kernelSend_full (k : Kernel) (fd : Int) (b : List Nat)
    (hfd : 0 ≤ fd) (hfd2 : fd = k.sendFd) (hopen : k.sendOpen = true)
    (hfull : k.sndbuf < k.queuedBytes + b.length) :
    kernelSend k fd b = (.err EAGAIN, k) := by
  unfold kernelSend
  rw [if_pos ⟨hfd, hfd2, hopen⟩, if_neg (by omega)]

/-! ### Claim theorems -/

/-- C2: for `sendObjects`/`recvObjects` with record size `S > 0`, a
non-negative raw byte count that is not a multiple of `S` takes the fatal
assertion path in both helpers, and a non-negative multiple of `S` never
does: the helpers then return the non-negative record count `size / S`. -/
theorem batch_boundary_integrity (S : Nat) (hS : 0 < S) (size : Int)
    (hsz : 0 ≤ size) :
    (¬ ((S : Int) ∣ size) →
      sendObjectsFromRaw S size = .fatal ∧ recvObjectsFromRaw S size = .fatal) ∧
    (((S : Int) ∣ size) →
      sendObjectsFromRaw S size = .ret (size / (S : Int)) ∧
      recvObjectsFromRaw S size = .ret (size / (S : Int)) ∧
      0 ≤ size / (S : Int)) := by
  constructor
  · intro hnd
    have hmod : size % (S : Int) ≠ 0 := fun h => hnd (Int.dvd_of_emod_eq_zero h)
    constructor <;>
    · simp only [sendObjectsFromRaw, recvObjectsFromRaw]
      rw [if_pos hsz, if_neg hS.ne', if_pos hmod]
  · intro hd
    have hmod : size % (S : Int) = 0 := Int.emod_eq_zero_of_dvd hd
    have hdiv : 0 ≤ size / (S : Int) := Int.ediv_nonneg hsz (by positivity)
    refine ⟨?_, ?_, hdiv⟩ <;>
    · simp only [sendObjectsFromRaw, recvObjectsFromRaw]
      rw [if_pos hsz, if_neg hS.ne', if_neg (by simp [hmod])]

/-- Witness for C2 at `S = 64`: raw byte count `129` is fatal in both
helpers, raw byte count `192` returns `3` records. -/
theorem batch_boundary_integrity_witness :
    sendObjectsFromRaw 64 129 = .fatal ∧ recvObjectsFromRaw 64 129 = .fatal ∧
    sendObjectsFromRaw 64 192 = .ret 3 ∧ recvObjectsFromRaw 64 192 = .ret 3 := by
  have h1 := (batch_boundary_integrity 64 (by decide) 129 (by decide)).1 (by decide)
  have h2 := (batch_boundary_integrity 64 (by decide) 192 (by decide)).2 (by decide)
  exact ⟨h1.1, h1.2, h2.1, h2.2.1⟩

/-- C9: with `recordSize > 0` the modulo and division of the batch helpers
never have a zero divisor; with `recordSize = 0` every non-negative raw
result reaches the zero-divisor modulo (C undefined behaviour), while a
negative raw result short-circuits past it. -/
theorem batch_recordSize_zero (S : Nat) (hS : 0 < S) (size : Int) :
    (sendObjectsFromRaw S size ≠ .divByZero ∧
     recvObjectsFromRaw S size ≠ .divByZero) ∧
    (0 ≤ size →
      sendObjectsFromRaw 0 size = .divByZero ∧
      recvObjectsFromRaw 0 size = .divByZero) ∧
    (size < 0 →
      sendObjectsFromRaw 0 size = .ret size ∧
      recvObjectsFromRaw 0 size = .ret size) := by
  refine ⟨?_, ?_, ?_⟩
  · constructor <;>
    · simp only [sendObjectsFromRaw, recvObjectsFromRaw]
      split_ifs <;> simp_all
  · intro hnn
    constructor <;>
    · simp only [sendObjectsFromRaw, recvObjectsFromRaw]
      rw [if_pos hnn]
      simp
  · intro hneg
    constructor <;>
    · simp only [sendObjectsFromRaw, recvObjectsFromRaw]
      rw [if_neg (by omega)]

/-- Witness for C9 at `S = 4`, raw results `8` and `-9`. -/
theorem batch_recordSize_zero_witness :
    sendObjectsFromRaw 4 8 ≠ .divByZero ∧
    sendObjectsFromRaw 0 8 = .divByZero ∧
    sendObjectsFromRaw 0 (-9) = .ret (-9) := by
  refine ⟨(batch_recordSize_zero 4 (by decide) 8).1.1, ?_, ?_⟩
  · exact ((batch_recordSize_zero 4 (by decide) 8).2.1 (by decide)).1
  · exact ((batch_recordSize_zero 4 (by decide) (-9)).2.2 (by decide)).1

/-- C6: `initCheck` returns `NO_ERROR` iff the receive descriptor is
valid; a failed pair allocation yields a tube that stores the negated
errno, which `initCheck` then returns (and which is not `NO_ERROR`), with
no kernel pair; `BitTube.init` has no fatal outcome (its result type is a
plain tube).  A successful allocation yields a valid tube. -/
theorem initCheck_spec (t : BitTube) (sndbuf e : Nat) (he : 0 < e) :
    (t.initCheck = NO_ERROR ↔ 0 ≤ t.mReceiveFd) ∧
    ((BitTube.init sndbuf (.fail e)).1.mReceiveFd = -(e : Int) ∧
     (BitTube.init sndbuf (.fail e)).1.initCheck = -(e : Int) ∧
     (BitTube.init sndbuf (.fail e)).1.initCheck ≠ NO_ERROR ∧
     (BitTube.init sndbuf (.fail e)).2 = none) ∧
    (∀ fd0 fd1 : Nat,
      (BitTube.init sndbuf (.ok fd0 fd1)).1.initCheck = NO_ERROR) := by
  refine ⟨?_, ⟨rfl, ?_, ?_, rfl⟩, ?_⟩
  · unfold BitTube.initCheck NO_ERROR
    split_ifs with h
    · constructor <;> intro h2 <;> omega
    · simp only [true_iff]; omega
  · simp only [BitTube.init, BitTube.initCheck]
    rw [if_pos (by omega)]
  · simp only [BitTube.init, BitTube.initCheck, NO_ERROR]
    rw [if_pos (by omega)]
    omega
  · intro fd0 fd1
    simp only [BitTube.init, BitTube.initCheck, NO_ERROR]
    rw [if_neg (by omega)]

/-- Witness for C6 at a tube with receive descriptor `3`, a failed
allocation with errno `12` (ENOMEM), and a successful allocation. -/
theorem initCheck_spec_witness :
    (BitTube.initCheck { mSendFd := 4, mReceiveFd := 3 } = NO_ERROR ↔
      (0 : Int) ≤ 3) ∧
    (BitTube.init 4096 (.fail 12)).1.initCheck = -12 ∧
    (BitTube.init 4096 (.ok 3 4)).1.initCheck = NO_ERROR := by
  refine ⟨(initCheck_spec { mSendFd := 4, mReceiveFd := 3 } 4096 12 (by decide)).1,
    ?_, (initCheck_spec { mSendFd := 4, mReceiveFd := 3 } 4096 12 (by decide)).2.2 3 4⟩
  exact (initCheck_spec { mSendFd := 4, mReceiveFd := 3 } 4096 12 (by decide)).2.1.2.1

/-- C5: construction from a parcel populates only the receive side: on a
successful `dup` the tube holds the fresh descriptor and is valid; on a
failed `dup` the tube stores the negated errno, which `initCheck` returns
(the tube is invalid). -/
theorem fromParcel_spec (fd e : Nat) (he : 0 < e) :
    ((BitTube.fromParcel (.ok fd)).mSendFd = -1 ∧
     (BitTube.fromParcel (.ok fd)).mReceiveFd = (fd : Int) ∧
     (BitTube.fromParcel (.ok fd)).initCheck = NO_ERROR) ∧
    ((BitTube.fromParcel (.fail e)).mSendFd = -1 ∧
     (BitTube.fromParcel (.fail e)).mReceiveFd = -(e : Int) ∧
     (BitTube.fromParcel (.fail e)).initCheck = -(e : Int) ∧
     (BitTube.fromParcel (.fail e)).initCheck ≠ NO_ERROR) := by
  refine ⟨⟨rfl, rfl, ?_⟩, rfl, rfl, ?_, ?_⟩
  · simp only [BitTube.fromParcel, BitTube.initCheck, NO_ERROR]
    rw [if_neg (by omega)]
  · simp only [BitTube.fromParcel, BitTube.initCheck]
    rw [if_pos (by omega)]
  · simp only [BitTube.fromParcel, BitTube.initCheck, NO_ERROR]
    rw [if_pos (by omega)]
    omega

/-- Witness for C5 at descriptor `7` and errno `9` (EBADF). -/
theorem fromParcel_spec_witness :
    (BitTube.fromParcel (.ok 7)).mReceiveFd = 7 ∧
    (BitTube.fromParcel (.fail 9)).initCheck = -9 := by
  exact ⟨(fromParcel_spec 7 9 (by decide)).1.2.1,
    (fromParcel_spec 7 9 (by decide)).2.2.2.1⟩

/-- C4: `writeToParcel` on a tube with no valid receive descriptor fails
with `-EINVAL` leaving tube and parcel unchanged; on a tube with a valid
receive descriptor it appends the duplicated descriptor to the parcel,
returns the dup status, and consumes the receive descriptor: afterwards
`initCheck` is not `NO_ERROR` and a `read` on any kernel state fails with
`-EBADF` (the tube is no longer usable for receiving). -/
theorem writeToParcel_spec (t : BitTube) (p : Parcel) (o : WriteDupOutcome)
    (newFd : Nat) (hv : 0 ≤ t.mReceiveFd) :
    (∀ t2 : BitTube, t2.mReceiveFd < 0 →
      t2.writeToParcel p o = (-(EINVAL : Int), t2, p)) ∧
    ((t.writeToParcel p (.ok newFd)).1 = NO_ERROR ∧
     (t.writeToParcel p (.ok newFd)).2.2.fds = p.fds ++ [(newFd : Int)] ∧
     (t.writeToParcel p (.ok newFd)).2.1.mReceiveFd = -1 ∧
     (t.writeToParcel p (.ok newFd)).2.1.mSendFd = t.mSendFd ∧
     (t.writeToParcel p (.ok newFd)).2.1.initCheck ≠ NO_ERROR ∧
     ∀ (k : Kernel) (cap : Nat),
       ((t.writeToParcel p (.ok newFd)).2.1.read k cap).1 = -(EBADF : Int)) ∧
    (∀ err : Int,
      (t.writeToParcel p (.fail err)).1 = err ∧
      (t.writeToParcel p (.fail err)).2.1.mReceiveFd = -1) := by
  have hnneg : ¬ t.mReceiveFd < 0 := by omega
  refine ⟨?_, ⟨?_, ?_, ?_, ?_, ?_, ?_⟩, ?_⟩
  · intro t2 h2
    unfold BitTube.writeToParcel
    rw [if_pos h2]
  · simp [BitTube.writeToParcel, hnneg]
  · simp [BitTube.writeToParcel, hnneg]
  · simp [BitTube.writeToParcel, hnneg]
  · simp [BitTube.writeToParcel, hnneg]
  · simp [BitTube.writeToParcel, hnneg, BitTube.initCheck, NO_ERROR]
  · intro k cap
    rw [read_invalid _ k cap (by simp [BitTube.writeToParcel, hnneg])]
  · intro err
    constructor <;> simp [BitTube.writeToParcel, hnneg]

/-- Witness for C4: an invalid tube fails with `-EINVAL`; a valid tube
with receive descriptor `3` hands descriptor `7` to the parcel and is
invalid afterwards. -/
theorem writeToParcel_spec_witness :
    BitTube.writeToParcel { mSendFd := 4, mReceiveFd := -1 } { fds := [] }
      (.ok 7) = (-(EINVAL : Int), { mSendFd := 4, mReceiveFd := -1 },
        { fds := [] }) ∧
    (BitTube.writeToParcel { mSendFd := 5, mReceiveFd := 3 } { fds := [] }
      (.ok 7)).1 = NO_ERROR ∧
    (BitTube.writeToParcel { mSendFd := 5, mReceiveFd := 3 } { fds := [] }
      (.ok 7)).2.2.fds = [(7 : Int)] ∧
    (BitTube.writeToParcel { mSendFd := 5, mReceiveFd := 3 } { fds := [] }
      (.ok 7)).2.1.initCheck ≠ NO_ERROR := by
  have h := writeToParcel_spec { mSendFd := 5, mReceiveFd := 3 } { fds := [] }
    (.ok 7) 7 (by decide)
  exact ⟨h.1 { mSendFd := 4, mReceiveFd := -1 } (by decide),
    h.2.1.1, h.2.1.2.1, h.2.1.2.2.2.2.1⟩

/-- C10: a tube constructed from a parcel carrier has no send descriptor
(`mSendFd = -1`), so on any kernel state a raw send fails with `EBADF`
and transmits nothing, `write` returns `-EBADF`, and `sendObjects`
returns the negative `-EBADF` as its record count with the kernel
unchanged. -/
theorem fromParcel_cannot_send (o : DupOutcome) (k : Kernel)
    (events : List Nat) (count S : Nat) :
    (BitTube.fromParcel o).mSendFd = -1 ∧
    kernelSend k (BitTube.fromParcel o).mSendFd (events.take (count * S)) =
      (.err EBADF, k) ∧
    ((BitTube.fromParcel o).write k (events.take (count * S))).1 =
      -(EBADF : Int) ∧
    ((BitTube.fromParcel o).sendObjects k events count S).1 =
      .ret (-(EBADF : Int)) ∧
    ((BitTube.fromParcel o).sendObjects k events count S).2 = k ∧
    -(EBADF : Int) < 0 := by
  have hsend : (BitTube.fromParcel o).mSendFd = -1 := by
    rcases o <;> rfl
  have hk : kernelSend k (BitTube.fromParcel o).mSendFd
      (events.take (count * S)) = (.err EBADF, k) :=
    kernelSend_invalid k _ _ (by rw [hsend]; decide)
  have hw : (BitTube.fromParcel o).write k (events.take (count * S)) =
      (-(EBADF : Int), k) := by
    unfold BitTube.write
    rw [hk]
  have hs : (BitTube.fromParcel o).sendObjects k events count S =
      (.ret (-(EBADF : Int)), k) := by
    unfold BitTube.sendObjects
    rw [hw]
    simp [sendObjectsFromRaw, EBADF]
  exact ⟨hsend, hk, by rw [hw], by rw [hs], by rw [hs], by decide⟩

/-- C3: with `S > 0`, a receive on an empty queue with the peer open
(would-block) makes `recvObjects` return `0` records, not a negative
value; a send whose payload exceeds the remaining outbound buffer space
makes `sendObjects` return the negative `-EAGAIN`; and every negative raw
result of the raw `write`/`read` is propagated unchanged as the record
count by both batch helpers. -/
theorem batch_wouldBlock_spec (t : BitTube) (k : Kernel) (events : List Nat)
    (count S : Nat) (hS : 0 < S) :
    (0 ≤ t.mReceiveFd → t.mReceiveFd = k.recvFd → k.recvOpen = true →
     k.queue = [] → k.sendOpen = true →
     (t.recvObjects k count S).1 = .ret 0) ∧
    (0 ≤ t.mSendFd → t.mSendFd = k.sendFd → k.sendOpen = true →
     k.sndbuf < k.queuedBytes + (events.take (count * S)).length →
     (t.sendObjects k events count S).1 = .ret (-(EAGAIN : Int)) ∧
     -(EAGAIN : Int) < 0) ∧
    (∀ size : Int, size < 0 →
      sendObjectsFromRaw S size = .ret size ∧
      recvObjectsFromRaw S size = .ret size) := by
  refine ⟨?_, ?_, ?_⟩
  · intro hfd hfd2 hopen hq hs
    unfold BitTube.recvObjects BitTube.read
    rw [kernelRecv_empty k t.mReceiveFd (count * S) hfd hfd2 hopen hq hs]
    simp [readFinish, EAGAIN, EWOULDBLOCK, recvObjectsFromRaw, hS.ne']
  · intro hfd hfd2 hopen hfull
    have hk := kernelSend_full k t.mSendFd (events.take (count * S))
      hfd hfd2 hopen hfull
    have hw : t.write k (events.take (count * S)) = (-(EAGAIN : Int), k) := by
      unfold BitTube.write
      rw [hk]
    constructor
    · unfold BitTube.sendObjects
      rw [hw]
      simp [sendObjectsFromRaw, EAGAIN]
    · decide
  · intro size hneg
    constructor <;>
    · simp only [sendObjectsFromRaw, recvObjectsFromRaw]
      rw [if_neg (by omega)]

/-- Witness for C3: on the idle demo pair a receive returns `0` records;
a 6-byte send into a full 4096-byte buffer returns `-EAGAIN`; the raw
error `-9` is propagated unchanged. -/
theorem batch_wouldBlock_spec_witness :
    (tubeDemo.recvObjects kernelIdle 3 2).1 = .ret 0 ∧
    (tubeDemo.sendObjects { kernelIdle with sndbuf := 0 } [1, 2, 3, 4, 5, 6]
      3 2).1 = .ret (-(EAGAIN : Int)) ∧
    sendObjectsFromRaw 2 (-9) = .ret (-9) := by
  refine ⟨(batch_wouldBlock_spec tubeDemo kernelIdle [] 3 2 (by decide)).1
      (by decide) (by decide) (by decide) (by decide) (by decide), ?_, ?_⟩
  · exact ((batch_wouldBlock_spec tubeDemo { kernelIdle with sndbuf := 0 }
      [1, 2, 3, 4, 5, 6] 3 2 (by decide)).2.1 (by decide) (by decide)
      (by decide) (by decide)).1
  · exact ((batch_wouldBlock_spec tubeDemo kernelIdle [] 3 2
      (by decide)).2.2 (-9) (by decide)).1

/-- C7 counterexample: under non-blocking I/O, "no data yet" (would-block,
peer open, empty queue) and "peer closed" (EOF, peer closed, empty queue)
produce the same caller-visible return value `0` from `read`, so the three
receive outcomes are not pairwise distinguishable by the return value. -/
theorem read_wouldBlock_peerClosed_same :
    (tubeDemo.read kernelIdle 64).1 = 0 ∧
    (tubeDemo.read kernelPeerClosed 64).1 = 0 ∧
    (tubeDemo.read kernelIdle 64).1 = (tubeDemo.read kernelPeerClosed 64).1 := by
  decide

/-- C7 amended: a real receive error is distinguishable by sign (negative
return value) from both "no data yet" and "peer closed", but the latter
two are not distinguishable from each other: on an empty queue `read`
returns `0` whether the peer is open (would-block) or closed (EOF). -/
theorem read_error_sign_distinction (t : BitTube) (k : Kernel) (cap : Nat)
    (hfd : 0 ≤ t.mReceiveFd) (hfd2 : t.mReceiveFd = k.recvFd)
    (hopen : k.recvOpen = true) (hq : k.queue = []) :
    (t.read k cap).1 = 0 ∧
    (∀ e : Nat, 0 < e → e ≠ EAGAIN → e ≠ EWOULDBLOCK →
      (readFinish (.err e)).1 = -(e : Int) ∧ (readFinish (.err e)).1 < 0) := by
  constructor
  · unfold BitTube.read kernelRecv
    rw [if_pos ⟨hfd, hfd2, hopen⟩]
    simp only [hq]
    rcases hs : k.sendOpen <;> simp [readFinish, EAGAIN, EWOULDBLOCK]
  · intro e he h1 h2
    constructor <;> simp [readFinish, h1, h2] <;> omega

/-- Witness for the amended C7 at the demo states and errno `107`
(ENOTCONN). -/
theorem read_error_sign_distinction_witness :
    (tubeDemo.read kernelIdle 64).1 = 0 ∧
    (tubeDemo.read kernelPeerClosed 64).1 = 0 ∧
    (readFinish (.err 107)).1 < 0 := by
  have h1 := read_error_sign_distinction tubeDemo kernelIdle 64
    (by decide) (by decide) (by decide) (by decide)
  have h2 := read_error_sign_distinction tubeDemo kernelPeerClosed 64
    (by decide) (by decide) (by decide) (by decide)
  exact ⟨h1.1, h2.1, (h1.2 107 (by decide) (by decide) (by decide)).2⟩

/-- C1: on a freshly paired channel (empty queue), a batch of `N1`
records of size `S` sent by one `sendObjects` is received by a single
`recvObjects` with byte-identical contents and record count `N1`, and
with two batches sent back to back (both within the configured buffer
limit) the two receives deliver them whole, in send order, one batch per
receive (no record split or coalesced across a send boundary). -/
theorem sendRecv_roundTrip (t : BitTube) (k : Kernel)
    (hsfd : 0 ≤ t.mSendFd) (hsfd2 : t.mSendFd = k.sendFd)
    (hso : k.sendOpen = true)
    (hrfd : 0 ≤ t.mReceiveFd) (hrfd2 : t.mReceiveFd = k.recvFd)
    (hro : k.recvOpen = true)
    (hq : k.queue = [])
    (b1 b2 : List Nat) (N1 N2 S : Nat)
    (hN1 : 0 < N1) (hN2 : 0 < N2) (hS : 0 < S)
    (hl1 : b1.length = N1 * S) (hl2 : b2.length = N2 * S)
    (hcap : N1 * S + N2 * S ≤ k.sndbuf) :
    (∃ k1 k2 : Kernel,
      t.sendObjects k b1 N1 S = (.ret (N1 : Int), k1) ∧
      t.recvObjects k1 N1 S = (.ret (N1 : Int), b1, k2) ∧
      k2.queue = []) ∧
    (∃ k1 k2 k3 k4 : Kernel,
      t.sendObjects k b1 N1 S = (.ret (N1 : Int), k1) ∧
      t.sendObjects k1 b2 N2 S = (.ret (N2 : Int), k2) ∧
      t.recvObjects k2 N1 S = (.ret (N1 : Int), b1, k3) ∧
      t.recvObjects k3 N2 S = (.ret (N2 : Int), b2, k4) ∧
      k4.queue = []) := by
  have hqb : k.queuedBytes = 0 := by simp [Kernel.queuedBytes, hq]
  have h1 := sendObjects_ok t k b1 N1 S hS hsfd hsfd2 hso hl1 (by omega)
  constructor
  · have h2 := recvObjects_ok t { k with queue := k.queue ++ [b1] } b1 []
      N1 S hS hrfd hrfd2 hro (by simp [hq]) hl1
    exact ⟨_, _, h1, h2, rfl⟩
  · have h2 := sendObjects_ok t { k with queue := k.queue ++ [b1] } b2 N2 S
      hS hsfd hsfd2 hso hl2
      (by simp [Kernel.queuedBytes, hq, hl1]; omega)
    have h3 := recvObjects_ok t
      { k with queue := (k.queue ++ [b1]) ++ [b2] } b1 [b2]
      N1 S hS hrfd hrfd2 hro (by simp [hq]) hl1
    have h4 := recvObjects_ok t
      { k with queue := [b2] } b2 []
      N2 S hS hrfd hrfd2 hro (by simp) hl2
    exact ⟨_, _, _, _, h1, h2, h3, h4, rfl⟩

/-- Witness for C1: three 2-byte records, then one 2-byte record, on the
idle demo pair. -/
theorem sendRecv_roundTrip_witness :
    (tubeDemo.sendObjects kernelIdle [1, 2, 3, 4, 5, 6] 3 2).1 = .ret 3 ∧
    (tubeDemo.recvObjects
      (tubeDemo.sendObjects kernelIdle [1, 2, 3, 4, 5, 6] 3 2).2 3 2).1 =
      .ret 3 ∧
    (tubeDemo.recvObjects
      (tubeDemo.sendObjects kernelIdle [1, 2, 3, 4, 5, 6] 3 2).2 3 2).2.1 =
      [1, 2, 3, 4, 5, 6] := by
  obtain ⟨k1, k2, hs, hr, hq⟩ := (sendRecv_roundTrip tubeDemo kernelIdle
    (by decide) (by decide) (by decide) (by decide) (by decide) (by decide)
    (by decide) [1, 2, 3, 4, 5, 6] [7, 8] 3 1 2 (by decide) (by decide)
    (by decide) (by decide) (by decide) (by decide)).1
  refine ⟨?_, ?_, ?_⟩ <;> simp [hs, hr]

lemma lookupValueByLabel_not_mem (lit : String) (l : List (String × Int))
    (h : lit ∉ l.map Prod.fst) : lookupValueByLabel lit l = 0 := by
  induction l with
  | nil => rfl
  | cons e rest ih =>
      simp only [List.map_cons, List.mem_cons] at h
      push_neg at h
      unfold lookupValueByLabel
      rw [if_neg h.1]
      exact ih h.2

lemma lookupLabelByValue_not_mem (v : Int) (l : List (String × Int))
    (h : v ∉ l.map Prod.snd) : lookupLabelByValue v l = none := by
  induction l with
  | nil => rfl
  | cons e rest ih =>
      simp only [List.map_cons, List.mem_cons] at h
      push_neg at h
      unfold lookupLabelByValue
      rw [if_neg (fun h2 => h.1 h2.symm)]
      exact ih h.2

/-- C8: for each of the four label tables, a name not present in the
table makes the name-to-code lookup return the zero-valued sentinel (the
terminator value), and a value that is out of range or unmapped makes the
code-to-name lookup return the not-found result `none`. -/
theorem labelTables_lookup_spec (name : String) (v keyCode : Int)
    (hk : name ∉ KEYCODES.map Prod.fst) (ha : name ∉ AXES.map Prod.fst)
    (hl : name ∉ LEDS.map Prod.fst) (hf : name ∉ FLAGS.map Prod.fst)
    (hvk : v ∉ KEYCODES.map Prod.snd) (hva : v ∉ AXES.map Prod.snd)
    (hvl : v ∉ LEDS.map Prod.snd) (hvf : v ∉ FLAGS.map Prod.snd)
    (hkc : keyCode < 0 ∨ (KEYCODES.length : Int) ≤ keyCode) :
    getKeyCodeByLabel name = 0 ∧ getAxisByLabel name = 0 ∧
    getLedByLabel name = 0 ∧ getKeyFlagByLabel name = 0 ∧
    lookupLabelByValue v KEYCODES = none ∧ getAxisLabel v = none ∧
    lookupLabelByValue v LEDS = none ∧ lookupLabelByValue v FLAGS = none ∧
    getLabelByKeyCode keyCode = none := by
  refine ⟨lookupValueByLabel_not_mem name KEYCODES hk,
    lookupValueByLabel_not_mem name AXES ha,
    lookupValueByLabel_not_mem name LEDS hl,
    lookupValueByLabel_not_mem name FLAGS hf,
    lookupLabelByValue_not_mem v KEYCODES hvk,
    lookupLabelByValue_not_mem v AXES hva,
    lookupLabelByValue_not_mem v LEDS hvl,
    lookupLabelByValue_not_mem v FLAGS hvf, ?_⟩
  unfold getLabelByKeyCode
  rcases hkc with h | h
  · rw [if_neg (by omega)]
  · by_cases heq : keyCode < (KEYCODES.length : Int) + 1
    · rw [if_pos ⟨by omega, heq⟩, dif_neg (by omega)]
    · rw [if_neg (by omega)]

set_option maxRecDepth 16384 in
/-- Witness for C8: the unknown name, the unmapped value `-12345`, the
in-range terminator index `268`, and the out-of-range code `99999`. -/
theorem labelTables_lookup_spec_witness :
    getKeyCodeByLabel "NOT_A_REAL_LABEL" = 0 ∧
    getAxisLabel (-12345) = none ∧
    getLabelByKeyCode 268 = none ∧
    getLabelByKeyCode 99999 = none := by
  have h1 := labelTables_lookup_spec "NOT_A_REAL_LABEL" (-12345) 268
    (by decide) (by decide) (by decide) (by decide) (by decide) (by decide)
    (by decide) (by decide) (by decide)
  have h2 := labelTables_lookup_spec "NOT_A_REAL_LABEL" (-12345) 99999
    (by decide) (by decide) (by decide) (by decide) (by decide) (by decide)
    (by decide) (by decide) (by decide)
  exact ⟨h1.1, h1.2.2.2.2.2.1, h1.2.2.2.2.2.2.2.2, h2.2.2.2.2.2.2.2.2⟩
